import Mathlib

/-!
# Verification of the MyLCAgent agent runtime

Shallow embedding of the agent-orchestration and streaming-event pipeline of
the repository (src/main.py and src/versions/stream.py), together with proofs
about the embedded operations.  Pure functions of the source are translated as
Lean functions; the tool handlers' progress events (the Python
`get_stream_writer` side channel) are made explicit as a returned list of
event payloads; program state touched by tool invocation is passed explicitly.

The orchestrator loop and the stream multiplexer themselves live in the
external langgraph/langchain runtime (the repository only wires them via
`create_agent` / `agent.stream`); where a property is decided by that missing
code, the corresponding definition is modelled from the specification's words
and marked as such in its doc comment.
-/

namespace MyLCAgent

/-! ## Data model -/

/-- Message roles, as in the spec's data model (system, human, ai, tool). -/
inductive Role
  | system
  | human
  | ai
  | tool
deriving DecidableEq, Repr

/-- A conversation message: role, string content, optional display name and
identifier.  Mirrors the langchain message objects used by src/main.py. -/
structure Message where
  role : Role
  content : String
  name : Option String := none
  id : Option String := none
deriving DecidableEq, Repr

/-- A content block of an `ai` message, as inspected duck-typed by
`dispatch_react_elements` (src/main.py:120-135): a dict with a `type` tag and
the fields the dispatcher reads (`text`, `name`, `args`, `summary`).  Args are
modelled as an association list of string key/value pairs; a reasoning
block's summary is the list of its items' `text` fields. -/
structure Block where
  type : String
  text : Option String := none
  name : Option String := none
  args : List (String × String) := []
  summary : List String := []
deriving DecidableEq, Repr

/-- One ReAct step handed to `print_react_step` (src/main.py:74):
step type, content, and the optional tool arguments of an action step. -/
structure Step where
  step_type : String
  content : String
  args : Option (List (String × String)) := none
deriving DecidableEq, Repr

/-- The runtime context dataclass (src/main.py:24-26): caller identity. -/
structure Context where
  user_id : String
deriving DecidableEq, Repr

/-! ## Tool argument validation (src/main.py:29-36)

`WeatherQuery` is a pydantic model with a required `city` field and the
validator `city_must_not_be_empty`.  A failing validator or a missing
required field surfaces as a pydantic ValidationError naming the field. -/

/-- A validation failure naming the offending field, as pydantic reports it. -/
structure ValidationError where
  field : String
  msg : String
deriving DecidableEq, Repr

/-- Python `str.strip`: remove leading and trailing whitespace. -/
def strip (s : String) : String :=
  ⟨((s.data.dropWhile Char.isWhitespace).reverse.dropWhile Char.isWhitespace).reverse⟩

/-- Python `str.startswith`: the second string is a prefix of the first. -/
def startswith (s pre : String) : Bool :=
  pre.data.isPrefixOf s.data

/-- The pydantic validator `WeatherQuery.city_must_not_be_empty`
(src/main.py:32-36): rejects an empty or whitespace-only city, otherwise
returns the stripped city. -/
def city_must_not_be_empty (v : String) : Except String String :=
  if v = "" ∨ strip v = "" then Except.error "城市名称不能为空"
  else Except.ok (strip v)

/-- Validation of raw `WeatherQuery` arguments against the declared schema:
the required field `city` must be present, then the field validator runs.
Either failure is a ValidationError naming `city`. -/
def validateWeatherQuery (raw : Option String) : Except ValidationError String :=
  match raw with
  | none => Except.error ⟨"city", "Field required"⟩
  | some v =>
    match city_must_not_be_empty v with
    | Except.error m => Except.error ⟨"city", m⟩
    | Except.ok c => Except.ok c

/-! ## Tool handlers (src/main.py:49-70)

Each handler returns its result string together with the list of progress
payloads it writes to the custom stream channel. -/

/-- The weather (condition-lookup) tool handler (src/main.py:53-58): strips
the validated city, emits one progress event, returns the punny forecast. -/
def get_weather_for_location (city : String) : String × List String :=
  let c := strip city
  (c ++ "总是阳光明媚，真是‘晴’深似海！", ["🔍 正在查询: " ++ c])

/-- The location-lookup tool handler (src/main.py:65-70): reads the runtime
context's user_id, returns 佛罗里达 for user "1" and 旧金山 otherwise. -/
def get_user_location (ctx : Context) : String × List String :=
  let location := if ctx.user_id = "1" then "佛罗里达" else "旧金山"
  (location, ["📍 找到位置: " ++ location])

/-- The weather-tool invocation through the argument schema: validate, then
run the handler on the validated argument. -/
def invoke_weather (raw : Option String) : Except ValidationError (String × List String) :=
  match validateWeatherQuery raw with
  | Except.error e => Except.error e
  | Except.ok city => Except.ok (get_weather_for_location city)

namespace StreamVersion

/-- The weather tool of src/versions/stream.py:29-35: plain `city : str`
argument with no emptiness validator; two progress events. -/
def get_weather_for_location (city : String) : String × List String :=
  (city ++ "总是阳光明媚！",
   ["🔍 正在查询城市: " ++ city, "📊 获取到城市数据: " ++ city])

/-- Invocation of the stream.py weather tool: the schema only requires the
string field to be present; any present string, empty included, reaches the
handler. -/
def invoke_weather (raw : Option String) : Except ValidationError (String × List String) :=
  match raw with
  | none => Except.error ⟨"city", "Field required"⟩
  | some v => Except.ok (get_weather_for_location v)

/-- The location tool of src/versions/stream.py:38-46: same branch on the
context's user_id, with two progress events. -/
def get_user_location (ctx : Context) : String × List String :=
  let location := if ctx.user_id = "1" then "佛罗里达" else "旧金山"
  (location, ["👤 正在查找用户ID: " ++ ctx.user_id, "📍 找到用户位置: " ++ location])

end StreamVersion

/-! ## Tool registry invocation with explicit program state

The program state visible to a tool invocation: the immutable runtime context
and the log of custom progress events emitted so far.  `ToolRegistry.invoke`
validates arguments against the declared schema and runs the matching handler
(src/main.py:49-70), appending the handler's progress events to the log. -/

/-- Program state threaded through a tool invocation. -/
structure AgentState where
  ctx : Context
  customEvents : List String
deriving DecidableEq, Repr

/-- Outcome of a registry invocation. -/
inductive ToolResult
  | ok (r : String)
  | validationErr (e : ValidationError)
  | unknownTool
deriving DecidableEq, Repr

/-- Registry invocation: dispatch on the registered tool name, validate the
raw arguments, run the handler with the validated arguments and (for the
location tool) the runtime context. -/
def ToolRegistry.invoke (name : String) (rawArgs : Option String)
    (s : AgentState) : ToolResult × AgentState :=
  if name = "get_weather_for_location" then
    match validateWeatherQuery rawArgs with
    | Except.error e => (ToolResult.validationErr e, s)
    | Except.ok city =>
      let r := get_weather_for_location city
      (ToolResult.ok r.1, ⟨s.ctx, s.customEvents ++ r.2⟩)
  else if name = "get_user_location" then
    let r := get_user_location s.ctx
    (ToolResult.ok r.1, ⟨s.ctx, s.customEvents ++ r.2⟩)
  else (ToolResult.unknownTool, s)

/-! ## Unicode-escape normalization (src/main.py:85-90)

`print_react_step` decodes `\u` escape sequences in the content if present;
a decoding failure is swallowed and the raw content kept.  The decoder itself
(Python's unicode_escape codec) is opaque; it is a parameter returning
`none` exactly when decoding raises. -/

/-- Whether a character list starts with the two characters backslash, u. -/
def buAtHead : List Char → Bool
  | c1 :: c2 :: _ => c1 = '\\' && c2 = 'u'
  | _ => false

/-- Whether a character list contains the subsequence backslash, u. -/
def containsBU : List Char → Bool
  | [] => false
  | c :: cs => buAtHead (c :: cs) || containsBU cs

/-- The Python test `content and "\u" in content` of src/main.py:86: note an
empty content makes both sides false. -/
def containsBackslashU (s : String) : Bool :=
  containsBU s.data

/-- The normalization step of `print_react_step` (src/main.py:85-90): decode
only when a backslash-u sequence is present; keep the raw content when the
decoder fails; never raise. -/
def normalizeContent (decode : String → Option String) (content : String) : String :=
  if containsBackslashU content then
    match decode content with
    | some d => d
    | none => content
  else content

/-! ## Content-block classification (src/main.py:109-135)

`dispatch_react_elements` routes a message: a tool message becomes an
Observation step unless its content carries the structured-response
acknowledgement; an ai message has its content blocks classified in order;
any other message produces nothing. -/

/-- Association-list lookup of a tool-call argument. -/
def lookupArg (args : List (String × String)) (k : String) : Option String :=
  (args.find? (fun p => p.1 = k)).map (fun p => p.2)

/-- Python `args.get(field)` truthiness: the key is present and its value is a
nonempty string. -/
def truthyGet (args : List (String × String)) (k : String) : Option String :=
  match lookupArg args k with
  | some v => if v = "" then none else some v
  | none => none

/-- Classification of one content block (the loop body of
src/main.py:121-135): reasoning becomes a thought step, a tool_call named
`ResponseFormat` is lifted into its question/thought/final_answer fields, any
other tool_call becomes an action step, nonempty text becomes an info step,
and every other kind produces nothing. -/
def dispatchBlock (b : Block) : List Step :=
  if b.type = "reasoning" then
    [⟨"thought", String.intercalate " " b.summary, none⟩]
  else if b.type = "tool_call" then
    if b.name = some "ResponseFormat" then
      ["question", "thought", "final_answer"].filterMap (fun f =>
        (truthyGet b.args f).map (fun v => ⟨f, v, none⟩))
    else
      [⟨"action", b.name.getD "", some b.args⟩]
  else if b.type = "text" then
    match b.text with
    | some t => if t = "" then [] else [⟨"info", t, none⟩]
    | none => []
  else []

/-- Classification of a block list in original order (the `for` loop of
src/main.py:121). -/
def dispatchBlocks : List Block → List Step
  | [] => []
  | b :: bs => dispatchBlock b ++ dispatchBlocks bs

/-- `dispatch_react_elements` (src/main.py:109-135): tool messages produce an
Observation step unless suppressed; ai messages have their content blocks
classified; other messages produce nothing. -/
def dispatch_react_elements (m : Message) (blocks : List Block) : List Step :=
  if m.role = Role.tool then
    if startswith m.content "Returning structured response" then []
    else [⟨"observation", m.content, none⟩]
  else if m.role = Role.ai then dispatchBlocks blocks
  else []

/-! ## Input-message construction (src/main.py:139-141)

`run_agent` builds the human input message appended to the thread; its
display name embeds the runtime context's user_id. -/

/-- The `user_msg` built by `run_agent` (src/main.py:141). -/
def run_agent_user_msg (user_input : String) (ctx : Context) : Message :=
  { role := Role.human
    content := user_input
    name := some ("user_" ++ ctx.user_id)
    id := none }

/-! ## Orchestrator state machine (spec §4.3)

The turn loop itself is implemented by the external langgraph/langchain agent
runtime; src/main.py only wires it through `create_agent` (lines 179-187).
The definitions below are therefore modelled from the specification. -/

/-- A pending tool call issued by the model. -/
structure ToolRequest where
  name : String
  args : List (String × String)
  call_id : String
deriving DecidableEq, Repr

/-- A structured final answer: a caller-declared record, modelled as its
field assignment. -/
structure StructuredResponse where
  fields : List (String × String)
deriving DecidableEq, Repr

/-- One round of model output: either one or more tool calls, or the
structured final answer. -/
inductive ModelOutput
  | toolCalls (calls : List ToolRequest)
  | finalAnswer (resp : StructuredResponse)
deriving DecidableEq, Repr

/-- The persisted conversation thread: an ordered message log. -/
structure Thread where
  messages : List Message
deriving DecidableEq, Repr

/-- Fatal orchestrator failures surfaced to the caller. -/
inductive OrchErr
  | loopLimitExceeded
deriving DecidableEq, Repr

/-- The ai message recording a round of tool calls. -/
def aiToolCallMessage (calls : List ToolRequest) : Message :=
  ⟨Role.ai, String.intercalate ", " (calls.map ToolRequest.name), none, none⟩

/-- The terminal ai message carrying the structured response. -/
def finalMessage (r : StructuredResponse) : Message :=
  ⟨Role.ai, String.intercalate ", " (r.fields.map (fun p => p.1 ++ "=" ++ p.2)),
   none, none⟩

/-- Modelled from the spec: the Thinking↔ToolDispatch loop of the
AgentOrchestrator (spec §4.3), which lives in the external agent runtime and
is absent from src/.  `fuel` is the number of Thinking→ToolDispatch cycles
still allowed; a round of tool calls with no cycle left is the
`LoopLimitExceeded` failure; a final answer terminates with the accumulated
history. -/
def runCycles (model : List Message → ModelOutput) (invoke : ToolRequest → Message) :
    Nat → List Message → Except OrchErr (StructuredResponse × List Message)
  | fuel, hist =>
    match model hist with
    | ModelOutput.finalAnswer r => Except.ok (r, hist ++ [finalMessage r])
    | ModelOutput.toolCalls calls =>
      match fuel with
      | 0 => Except.error OrchErr.loopLimitExceeded
      | Nat.succ fuelLeft =>
        runCycles model invoke fuelLeft
          (hist ++ aiToolCallMessage calls :: calls.map invoke)

/-- Modelled from the spec: one orchestrator turn (spec §4.3, §7).  The turn
runs the cycle loop on the thread history plus the new input; on success the
produced messages are committed to the thread atomically, on a fatal failure
the thread is returned in its last persisted state (no partial-turn write). -/
def runTurn (bound : Nat) (model : List Message → ModelOutput)
    (invoke : ToolRequest → Message) (input : Message) (t : Thread) :
    Except OrchErr StructuredResponse × Thread :=
  match runCycles model invoke bound (t.messages ++ [input]) with
  | Except.ok (r, msgs) => (Except.ok r, ⟨msgs⟩)
  | Except.error e => (Except.error e, t)

/-! ## Stream multiplexer (spec §4.5)

Multiplexed delivery of the `custom` and `step`-update channels is performed
by langgraph's `agent.stream` (consumed in src/main.py:143-160 and
src/versions/stream.py:88-99); the trace of one tool invocation is modelled
from the specification. -/

/-- A multiplexed stream event: a custom progress payload or a step update
carrying newly produced messages. -/
inductive Event
  | custom (payload : String)
  | step (node : String) (msgs : List Message)
deriving DecidableEq, Repr

/-- Modelled from the spec: the event trace of one tool invocation on the
multiplexed stream (spec §4.5), absent from src/ (the handlers only write to
`get_stream_writer`).  The handler's progress payloads are delivered on the
custom channel, then the step event reporting the tool's completion. -/
def toolInvocationTrace (progress : List String) (observation : Message) : List Event :=
  progress.map Event.custom ++ [Event.step "tools" [observation]]

/-! ## Theorems -/

/-- C1 (amended): for the schema-validated weather tool of src/main.py
(`WeatherQuery`), a missing, empty, or whitespace-only required `city` fails
with a ValidationError naming the field `city` before the handler runs, and
for every non-whitespace `city` the handler runs with the validated
(stripped) argument. -/
theorem weather_city_validation (raw : Option String) :
    (raw = none → invoke_weather raw = Except.error ⟨"city", "Field required"⟩) ∧
    (∀ v, raw = some v → strip v = "" →
      invoke_weather raw = Except.error ⟨"city", "城市名称不能为空"⟩) ∧
    (∀ v, raw = some v → strip v ≠ "" →
      invoke_weather raw = Except.ok (get_weather_for_location (strip v))) := by
  refine ⟨?_, ?_, ?_⟩
  · rintro rfl
    rfl
  · rintro v rfl hv
    have hcond : v = "" ∨ strip v = "" := Or.inr hv
    simp [invoke_weather, validateWeatherQuery, city_must_not_be_empty, hcond]
  · rintro v rfl hv
    have hcond : ¬(v = "" ∨ strip v = "") := by
      rintro (rfl | h)
      · exact hv rfl
      · exact hv h
    simp [invoke_weather, validateWeatherQuery, city_must_not_be_empty, hcond]

/-- C1 witness: the whitespace-only city "  " is rejected with a
ValidationError naming `city`. -/
theorem weather_city_validation_witness :
    invoke_weather (some "  ") = Except.error ⟨"city", "城市名称不能为空"⟩ :=
  (weather_city_validation (some "  ")).2.1 "  " rfl rfl

/-- C1 counterexample: the weather tool variant of src/versions/stream.py
declares a bare string `city` with no emptiness validator, so invoking it
with the empty city runs the handler and succeeds instead of failing with a
ValidationError naming `city`. -/
theorem stream_weather_accepts_empty_city :
    StreamVersion.invoke_weather (some "") =
      Except.ok ("总是阳光明媚！", ["🔍 正在查询城市: ", "📊 获取到城市数据: "]) := rfl

/-- C3: the location-lookup tool returns 佛罗里达 (Florida) iff the context's
user_id equals "1", and 旧金山 (San Francisco) for every other user_id; the
src/versions/stream.py variant returns the same location. -/
theorem user_location_branches (ctx : Context) :
    ((get_user_location ctx).1 = "佛罗里达" ↔ ctx.user_id = "1") ∧
    (ctx.user_id ≠ "1" → (get_user_location ctx).1 = "旧金山") ∧
    (StreamVersion.get_user_location ctx).1 = (get_user_location ctx).1 := by
  by_cases h : ctx.user_id = "1" <;>
    simp [get_user_location, StreamVersion.get_user_location, h]

/-- C3 witness: for user_id "2" the location tool returns 旧金山. -/
theorem user_location_branches_witness :
    (get_user_location ⟨"2"⟩).1 = "旧金山" :=
  (user_location_branches ⟨"2"⟩).2.1 (by decide)

/-- C4 counterexample: the human input message that `run_agent` appends to
the thread embeds the context's user_id in its name field
(`user_` ++ user_id), so a persisted Message field depends on the
ExecutionContext: the messages for user_id "1" and "2" differ, and the
former's name is "user_1". -/
theorem context_leaks_into_message_name :
    run_agent_user_msg "天气如何呢?" ⟨"1"⟩ ≠ run_agent_user_msg "天气如何呢?" ⟨"2"⟩ ∧
    (run_agent_user_msg "天气如何呢?" ⟨"1"⟩).name = some "user_1" :=
  ⟨by decide, rfl⟩

/-- C4 (amended): the ExecutionContext's attributes are never serialized into
a Message's content — the appended human message's content is exactly the
user input, independent of the context — but the message's display name
embeds the user_id as "user_" ++ user_id and is persisted with the thread. -/
theorem context_absent_from_message_content (input : String) (c₁ c₂ : Context) :
    (run_agent_user_msg input c₁).content = input ∧
    (run_agent_user_msg input c₁).content = (run_agent_user_msg input c₂).content ∧
    (run_agent_user_msg input c₁).name = some ("user_" ++ c₁.user_id) :=
  ⟨rfl, rfl, rfl⟩

/-- C7: for content containing an escaped sequence (backslash-u), the
normalization step of `print_react_step` returns the decoder's output when
decoding succeeds and the raw content unmodified when the decoder fails; the
step is a total function, so no failure is surfaced to the caller. -/
theorem normalize_handles_escapes (decode : String → Option String)
    (content : String) (h : containsBackslashU content = true) :
    (decode content = none → normalizeContent decode content = content) ∧
    (∀ d, decode content = some d → normalizeContent decode content = d) := by
  constructor
  · intro hd
    simp [normalizeContent, h, hd]
  · intro d hd
    simp [normalizeContent, h, hd]

/-- C7 witness: a failing decoder leaves the escaped content unchanged. -/
theorem normalize_handles_escapes_witness :
    normalizeContent (fun _ => none) "\\u6674" = "\\u6674" :=
  (normalize_handles_escapes (fun _ => none) "\\u6674" (by decide)).1 rfl

/-- C9: registry invocation is deterministic and side-effect-free: for equal
contexts the result is identical regardless of other program state, the
context is never mutated, and the only state change is appending the
handler's progress events to the event log. -/
theorem invoke_pure_deterministic (name : String) (rawArgs : Option String)
    (s₁ s₂ : AgentState) (h : s₁.ctx = s₂.ctx) :
    (ToolRegistry.invoke name rawArgs s₁).1 = (ToolRegistry.invoke name rawArgs s₂).1 ∧
    ((ToolRegistry.invoke name rawArgs s₁).2).ctx = s₁.ctx ∧
    ∃ evs, (ToolRegistry.invoke name rawArgs s₁).2 = ⟨s₁.ctx, s₁.customEvents ++ evs⟩ := by
  obtain ⟨c₁, e₁⟩ := s₁
  obtain ⟨c₂, e₂⟩ := s₂
  simp only at h
  subst h
  by_cases h1 : name = "get_weather_for_location"
  · cases hv : validateWeatherQuery rawArgs with
    | error e =>
        refine ⟨?_, ?_, ⟨[], ?_⟩⟩ <;> simp [ToolRegistry.invoke, h1, hv]
    | ok city =>
        refine ⟨?_, ?_, ⟨(get_weather_for_location city).2, ?_⟩⟩ <;>
          simp [ToolRegistry.invoke, h1, hv]
  · by_cases h2 : name = "get_user_location"
    · refine ⟨?_, ?_, ⟨(get_user_location c₁).2, ?_⟩⟩ <;>
        simp [ToolRegistry.invoke, h1, h2]
    · refine ⟨?_, ?_, ⟨[], ?_⟩⟩ <;> simp [ToolRegistry.invoke, h1, h2]

/-- C9 witness: two invocations of the location tool under the same context
but different prior event logs return the same result. -/
theorem invoke_pure_deterministic_witness :
    (ToolRegistry.invoke "get_user_location" none ⟨⟨"1"⟩, []⟩).1 =
      (ToolRegistry.invoke "get_user_location" none ⟨⟨"1"⟩, ["e1"]⟩).1 :=
  (invoke_pure_deterministic "get_user_location" none ⟨⟨"1"⟩, []⟩ ⟨⟨"1"⟩, ["e1"]⟩ rfl).1

/-- Helper: a model that always requests more tool calls drives the cycle
loop into the loop-limit failure for every fuel value. -/
theorem runCycles_alwaysTools (model : List Message → ModelOutput)
    (invoke : ToolRequest → Message)
    (h : ∀ hist, ∃ calls, model hist = ModelOutput.toolCalls calls) :
    ∀ fuel hist, runCycles model invoke fuel hist =
      Except.error OrchErr.loopLimitExceeded := by
  intro fuel
  induction fuel with
  | zero =>
      intro hist
      obtain ⟨calls, hc⟩ := h hist
      unfold runCycles
      rw [hc]
  | succ n ih =>
      intro hist
      obtain ⟨calls, hc⟩ := h hist
      unfold runCycles
      rw [hc]
      exact ih _

/-- C2: when the model requests another tool call on every round, so that the
Thinking-to-ToolDispatch cycles would exceed the caller-configured bound, the
turn fails with LoopLimitExceeded — not silent truncation — and the thread is
left unmodified by the aborted turn. -/
theorem loop_limit_exceeded_aborts (bound : Nat)
    (model : List Message → ModelOutput) (invoke : ToolRequest → Message)
    (input : Message) (t : Thread)
    (h : ∀ hist, ∃ calls, model hist = ModelOutput.toolCalls calls) :
    runTurn bound model invoke input t =
      (Except.error OrchErr.loopLimitExceeded, t) := by
  unfold runTurn
  rw [runCycles_alwaysTools model invoke h bound (t.messages ++ [input])]

/-- C2 witness: with cycle bound 1 and a model that always requests the
location tool, the turn on an empty thread aborts with LoopLimitExceeded and
the thread stays empty. -/
theorem loop_limit_exceeded_aborts_witness :
    runTurn 1 (fun _ => ModelOutput.toolCalls [⟨"get_user_location", [], "call_1"⟩])
        (fun _ => ⟨Role.tool, "佛罗里达", none, none⟩)
        ⟨Role.human, "天气如何呢?", none, none⟩ ⟨[]⟩ =
      (Except.error OrchErr.loopLimitExceeded, ⟨[]⟩) :=
  loop_limit_exceeded_aborts 1 _ _ _ _
    (fun _ => ⟨[⟨"get_user_location", [], "call_1"⟩], rfl⟩)

/-- C5: a tool_call block whose declared name equals the configured
StructuredResponse type name "ResponseFormat" is lifted into the
structured-response handling path: every step it produces is one of its
question/thought/final_answer arguments, and it is never dispatched or
printed as an action. -/
theorem responseformat_lifted (b : Block) (hb : b.type = "tool_call")
    (hn : b.name = some "ResponseFormat") :
    ∀ s ∈ dispatchBlock b,
      s.step_type ≠ "action" ∧ s.args = none ∧
      s.step_type ∈ ["question", "thought", "final_answer"] ∧
      truthyGet b.args s.step_type = some s.content := by
  intro s hs
  have e : dispatchBlock b =
      ["question", "thought", "final_answer"].filterMap (fun f =>
        (truthyGet b.args f).map (fun v => ⟨f, v, none⟩)) := by
    simp [dispatchBlock, hb, hn]
  rw [e, List.mem_filterMap] at hs
  obtain ⟨f, hf, hmap⟩ := hs
  rw [Option.map_eq_some'] at hmap
  rcases hmap with ⟨v, hv, rfl⟩
  have hf3 : f = "question" ∨ f = "thought" ∨ f = "final_answer" := by
    simpa using hf
  rcases hf3 with rfl | rfl | rfl <;> exact ⟨by simp, rfl, by simp, hv⟩

/-- C5 witness: a ResponseFormat tool_call with a final_answer argument is
lifted into a final_answer step, not an action. -/
theorem responseformat_lifted_witness :
    (Step.mk "final_answer" "ok" none).step_type ≠ "action" :=
  (responseformat_lifted
    ⟨"tool_call", none, some "ResponseFormat", [("final_answer", "ok")], []⟩
    rfl rfl (Step.mk "final_answer" "ok" none) (by decide)).1

/-- Helper: only indices inside the progress list of a tool invocation's
trace hold custom events. -/
theorem trace_custom_index : ∀ (progress : List String) (obs : Message)
    (i : Nat) (p : String),
    (toolInvocationTrace progress obs)[i]? = some (Event.custom p) →
    i < progress.length := by
  intro progress
  induction progress with
  | nil =>
      intro obs i p hi
      cases i with
      | zero => simp [toolInvocationTrace] at hi
      | succ n => simp [toolInvocationTrace] at hi
  | cons q qs ih =>
      intro obs i p hi
      cases i with
      | zero => simp
      | succ n =>
          have hn : (toolInvocationTrace qs obs)[n]? = some (Event.custom p) := by
            simpa [toolInvocationTrace] using hi
          have := ih obs n p hn
          simp only [List.length_cons]
          omega

/-- Helper: a step event occurs in a tool invocation's trace only at the
index right after all the progress events. -/
theorem trace_step_index : ∀ (progress : List String) (obs : Message)
    (j : Nat) (node : String) (ms : List Message),
    (toolInvocationTrace progress obs)[j]? = some (Event.step node ms) →
    j = progress.length := by
  intro progress
  induction progress with
  | nil =>
      intro obs j node ms hj
      cases j with
      | zero => rfl
      | succ n => simp [toolInvocationTrace] at hj
  | cons q qs ih =>
      intro obs j node ms hj
      cases j with
      | zero => simp [toolInvocationTrace] at hj
      | succ n =>
          have hn : (toolInvocationTrace qs obs)[n]? = some (Event.step node ms) := by
            simpa [toolInvocationTrace] using hj
          have := ih obs n node ms hn
          simp only [List.length_cons]
          omega

/-- C6: on the multiplexed trace of one tool invocation, every custom-channel
progress event emitted from inside the tool's handler is delivered strictly
before the step event that reports that tool's completion. -/
theorem custom_precedes_completion (progress : List String) (obs : Message)
    (i j : Nat) (p : String) (node : String) (ms : List Message)
    (hi : (toolInvocationTrace progress obs)[i]? = some (Event.custom p))
    (hj : (toolInvocationTrace progress obs)[j]? = some (Event.step node ms)) :
    i < j := by
  have h1 := trace_custom_index progress obs i p hi
  have h2 := trace_step_index progress obs j node ms hj
  omega

/-- C6 witness: the weather handler's progress event at index 0 precedes the
completion step event at index 1. -/
theorem custom_precedes_completion_witness : (0 : Nat) < 1 :=
  custom_precedes_completion (get_weather_for_location "佛罗里达").2
    ⟨Role.tool, (get_weather_for_location "佛罗里达").1, none, none⟩
    0 1 "🔍 正在查询: 佛罗里达" "tools"
    [⟨Role.tool, (get_weather_for_location "佛罗里达").1, none, none⟩]
    rfl rfl

/-- Helper: classification of blocks distributes over concatenation, i.e. the
blocks are processed in their original order. -/
theorem dispatchBlocks_append (l₁ l₂ : List Block) :
    dispatchBlocks (l₁ ++ l₂) = dispatchBlocks l₁ ++ dispatchBlocks l₂ := by
  induction l₁ with
  | nil => rfl
  | cons b bs ih => simp [dispatchBlocks, ih]

/-- C8: classification iterates the content blocks in original order, and a
block whose declared kind is none of text, tool_call, reasoning contributes
nothing: it is dropped from the classification output without error and
without affecting the classification of the surrounding blocks. -/
theorem unknown_kind_dropped (pre post : List Block) (b : Block)
    (h1 : b.type ≠ "text") (h2 : b.type ≠ "tool_call")
    (h3 : b.type ≠ "reasoning") :
    dispatchBlock b = [] ∧
    dispatchBlocks (pre ++ b :: post) = dispatchBlocks pre ++ dispatchBlocks post := by
  have hb : dispatchBlock b = [] := by
    simp [dispatchBlock, h1, h2, h3]
  refine ⟨hb, ?_⟩
  rw [show (pre ++ b :: post) = pre ++ [b] ++ post by simp,
      dispatchBlocks_append, dispatchBlocks_append]
  simp [dispatchBlocks, hb]

/-- C8 witness: an image block is dropped from classification. -/
theorem unknown_kind_dropped_witness :
    dispatchBlock ⟨"image", some "x", none, [], []⟩ = [] :=
  (unknown_kind_dropped [] [] ⟨"image", some "x", none, [], []⟩
    (by decide) (by decide) (by decide)).1

/-- C10: a tool message is printed as an Observation step iff its content
does not start with the literal prefix "Returning structured response"; a
tool result carrying the structured-response acknowledgement is silently
suppressed (it produces no output at all). -/
theorem tool_message_observation (m : Message) (blocks : List Block)
    (h : m.role = Role.tool) :
    (startswith m.content "Returning structured response" = false →
      dispatch_react_elements m blocks = [⟨"observation", m.content, none⟩]) ∧
    (startswith m.content "Returning structured response" = true →
      dispatch_react_elements m blocks = []) := by
  constructor <;> intro hs <;> simp [dispatch_react_elements, h, hs]

/-- C10 witness: the structured-response acknowledgement is suppressed. -/
theorem tool_message_observation_witness :
    dispatch_react_elements
      ⟨Role.tool, "Returning structured response", none, none⟩ [] = [] :=
  (tool_message_observation
    ⟨Role.tool, "Returning structured response", none, none⟩ [] rfl).2 (by decide)

end MyLCAgent
